import Mathlib

/-!
Shallow embedding of the poker WebSocket test harness
(`test_websocket_server.py`): the JSON value model, the `TestPlayer`
dataclass, the message dispatch of `handle_server_message`, the four-branch
decision rule of `auto_play`, the sending path `send_message`/`send_action`,
the listener loop `listen_for_messages`, and the orchestration
`run_all_tests`/`cleanup`.  Numeric JSON payload values are modelled as
rationals; Python exceptions are modelled as explicit `raised` flags or
`Option`/`none` results.
-/

namespace PokersHarness

/-- JSON values as produced by `json.loads`: null, booleans, numbers,
strings, arrays and objects.  An object is a field list in which a later
occurrence of a key shadows an earlier one, matching the dict that
`json.loads` builds. -/
inductive JValue where
  | jnull
  | jbool (b : Bool)
  | jnum (q : Rat)
  | jstr (s : String)
  | jarr (elems : List JValue)
  | jobj (fields : List (String × JValue))

/-- Python `dict.get(key, default)` over a field list; the last occurrence
of a key wins (threaded through the default accumulator). -/
def getD : List (String × JValue) → String → JValue → JValue
  | [], _, d => d
  | (k, v) :: rest, key, d => getD rest key (if k = key then v else d)

/-- Python `v == lit` between a decoded JSON value and a string literal:
true exactly for the equal string, false for every other value. -/
def jStrIs : JValue → String → Bool
  | .jstr s, t => s == t
  | _, _ => false

/-- Python truthiness of a decoded JSON value (used by `data or ...` and by
the `if can_check:` test). -/
def truthy : JValue → Bool
  | .jnull => false
  | .jbool b => b
  | .jnum q => q != 0
  | .jstr s => s != ""
  | .jarr elems => !elems.isEmpty
  | .jobj fields => !fields.isEmpty

/-- Python `v <= bound` on a decoded JSON value: defined for numbers and for
booleans (which Python orders as 0/1); any other operand raises TypeError,
modelled as `none`. -/
def pyLe : JValue → Rat → Option Bool
  | .jnum q, r => some (decide (q ≤ r))
  | .jbool b, r => some (decide ((if b then (1 : Rat) else 0) ≤ r))
  | _, _ => none

/-- Python `v > 0` on a decoded JSON value, with the same domain as `pyLe`. -/
def pyGt0 : JValue → Option Bool
  | .jnum q => some (decide (0 < q))
  | .jbool b => some b
  | _ => none

/-- Python `v == seat` between the decoded `data.get("seat")` value and the
player's `Optional[int]` seat: `None == None` is true, numbers compare
numerically, booleans compare as 0/1, everything else is false. -/
def pyEqSeat : JValue → Option Int → Bool
  | .jnull, none => true
  | .jnum q, some n => q == (n : Rat)
  | .jbool b, some n => (if b then (1 : Int) else 0) == n
  | _, _ => false

/-- Python `len(v)` on a decoded JSON value; `none` models the TypeError on
values that have no length. -/
def pyLen : JValue → Option Nat
  | .jstr s => some s.length
  | .jarr elems => some elems.length
  | .jobj fields => some fields.length
  | _ => none

/-- The `TestPlayer` dataclass. `hasSocket` models whether `websocket` holds
a connection object (a live object is truthy, `None` is falsy);
`socketClosed` records whether `close()` has been called on that object. -/
structure TestPlayer where
  name : String
  hasSocket : Bool
  seat : Option Int
  chips : Rat
  connected : Bool
  socketClosed : Bool

/-- The envelope dict built inside `send_message`:
`messageType` paired with `data or` the empty object, so a `None` or
otherwise falsy payload is replaced by the empty object. -/
def mkMessage (message_type : String) (data : Option JValue) : JValue :=
  .jobj [("messageType", .jstr message_type),
         ("data", match data with
                  | none => .jobj []
                  | some d => if truthy d then d else .jobj [])]

/-- `send_message`: raises (`none`) when the player is not connected or has
no websocket object; otherwise serialises the envelope and transmits it,
awaiting no acknowledgment. -/
def send_message (player : TestPlayer) (message_type : String)
    (data : Option JValue) : Option JValue :=
  if !player.connected || !player.hasSocket then none
  else some (mkMessage message_type data)

/-- `send_action` simply forwards to `send_message`. -/
def send_action (player : TestPlayer) (action : String)
    (data : Option JValue) : Option JValue :=
  send_message player action data

/-- One send inside `auto_play`: a failed `send_action` raises out of
`auto_play`, sending nothing. -/
def sendStep (player : TestPlayer) (action : String)
    (data : Option JValue) : List JValue × Bool :=
  match send_action player action data with
  | some env => ([env], false)
  | none => ([], true)

/-- `auto_play` over the `onmove` payload fields: check when `canCheck` is
truthy, else call when `callAmount <= 50`, else raise `minRaiseToTotalBet`
when `callAmount <= 100` and (short-circuit `and`) `minRaiseToTotalBet > 0`,
else fold.  A TypeError in a comparison raises.  Returns the envelopes sent
and whether an exception escaped. -/
def auto_play (player : TestPlayer) (move_data : List (String × JValue)) :
    List JValue × Bool :=
  let can_check := truthy (getD move_data "canCheck" (.jbool false))
  let call_amount := getD move_data "callAmount" (.jnum 0)
  let min_raise := getD move_data "minRaiseToTotalBet" (.jnum 0)
  if can_check then sendStep player "check" none
  else match pyLe call_amount 50 with
  | none => ([], true)
  | some true => sendStep player "call" none
  | some false =>
    match pyLe call_amount 100 with
    | none => ([], true)
    | some false => sendStep player "fold" none
    | some true =>
      match pyGt0 min_raise with
      | none => ([], true)
      | some true => sendStep player "raise" (some (.jobj [("amount", min_raise)]))
      | some false => sendStep player "fold" none

/-- Result of `handle_server_message`: the (possibly replaced) shared
`game_state`, the player record (which the handler never assigns to), the
envelopes sent while handling, and whether an exception escaped to the
listener loop. -/
structure HandleResult where
  game_state : JValue
  player : TestPlayer
  sent : List JValue
  raised : Bool

/-- `handle_server_message`: dispatch on `message.get("messageType", "")`.
`gameState` replaces the shared snapshot with `data` (the log line then
evaluates `len(data.get("players", ...))`, raising when `data` is not a
dict or its `players` value has no length — after the replacement);
`onmove` runs `auto_play` when `data.get("seat")` equals the player's seat;
`handWinnings` only logs; anything else falls through.  A non-dict message
raises at the first `.get`. -/
def handle_server_message (game_state : JValue) (player : TestPlayer)
    (message : JValue) : HandleResult :=
  match message with
  | .jobj fields =>
    let message_type := getD fields "messageType" (.jstr "")
    let data := getD fields "data" (.jobj [])
    if jStrIs message_type "gameState" then
      let logOk := match data with
        | .jobj dfields => (pyLen (getD dfields "players" (.jobj []))).isSome
        | _ => false
      ⟨data, player, [], !logOk⟩
    else if jStrIs message_type "onmove" then
      match data with
      | .jobj dfields =>
        if pyEqSeat (getD dfields "seat" .jnull) player.seat then
          ⟨game_state, player, (auto_play player dfields).1,
            (auto_play player dfields).2⟩
        else ⟨game_state, player, [], false⟩
      | _ => ⟨game_state, player, [], true⟩
    else if jStrIs message_type "handWinnings" then
      ⟨game_state, player, [], false⟩
    else
      ⟨game_state, player, [], false⟩
  | _ => ⟨game_state, player, [], true⟩

/-- One receive attempt of the listener loop, from the agent's side: a
delivered message (`none` when `json.loads` fails on it), a
ConnectionClosed raised by the transport, or any other transport failure. -/
inductive RecvEvent where
  | msg (raw : Option JValue)
  | closed
  | failed

/-- How the listener loop ended: the stream ran out, the ConnectionClosed
handler ran, or the generic exception handler ran. -/
inductive ExitReason where
  | normal
  | closedConn
  | errorCaught
deriving DecidableEq

/-- Result of the listener loop: final shared snapshot, final player record,
all envelopes sent, and how the loop exited. -/
structure ListenResult where
  game_state : JValue
  player : TestPlayer
  sent : List JValue
  exitReason : ExitReason

/-- `listen_for_messages`: iterate over received events.  A well-formed
message is decoded and handled; an exception escaping `json.loads` or the
handler is caught by the generic `except` clause, which logs and ends the
loop without touching `connected`; `ConnectionClosed` is caught by its own
clause, which sets `connected = False` and ends the loop. -/
def listen_for_messages : JValue → TestPlayer → List RecvEvent → ListenResult
  | game_state, player, [] => ⟨game_state, player, [], .normal⟩
  | game_state, player, .closed :: _ =>
    ⟨game_state, { player with connected := false }, [], .closedConn⟩
  | game_state, player, .failed :: _ => ⟨game_state, player, [], .errorCaught⟩
  | game_state, player, .msg none :: _ => ⟨game_state, player, [], .errorCaught⟩
  | game_state, player, .msg (some m) :: rest =>
    let r := handle_server_message game_state player m
    if r.raised then ⟨r.game_state, r.player, r.sent, .errorCaught⟩
    else
      let res := listen_for_messages r.game_state r.player rest
      ⟨res.game_state, res.player, r.sent ++ res.sent, res.exitReason⟩

/-- Exceptions escaping a scenario step: `KeyboardInterrupt` and `Exception`
are the two classes `run_all_tests` catches; any other `BaseException`
passes both handlers but still reaches the `finally` block. -/
inductive ExcKind where
  | keyboardInterrupt
  | exc
  | otherBase

/-- Closing a player's websocket object. -/
def close_ws (p : TestPlayer) : TestPlayer :=
  { p with socketClosed := true }

/-- `cleanup`: close the websocket of every player that is connected and has
one. -/
def cleanup (players : List TestPlayer) : List TestPlayer :=
  players.map (fun p => if p.connected && p.hasSocket then close_ws p else p)

/-- A scenario step of the try body: transforms the player set and may
raise. -/
def TestStep : Type := List TestPlayer → List TestPlayer × Option ExcKind

/-- The try body of `run_all_tests`: the steps run in order and stop at the
first one that raises. -/
def run_steps : List TestStep → List TestPlayer → List TestPlayer × Option ExcKind
  | [], ps => (ps, none)
  | step :: rest, ps =>
    match step ps with
    | (ps1, some e) => (ps1, some e)
    | (ps1, none) => run_steps rest ps1

/-- `run_all_tests`: the try/except/finally around the scenario steps.
`KeyboardInterrupt` and `Exception` are caught and logged; the `finally`
clause runs `cleanup` on every path; any other `BaseException` resumes
propagating after the cleanup. -/
def run_all_tests (steps : List TestStep) (players : List TestPlayer) :
    List TestPlayer × Option ExcKind :=
  match run_steps steps players with
  | (ps1, some .keyboardInterrupt) => (cleanup ps1, none)
  | (ps1, some .exc) => (cleanup ps1, none)
  | (ps1, some .otherBase) => (cleanup ps1, some .otherBase)
  | (ps1, none) => (cleanup ps1, none)

/-- The payload field list of an `onmove` turn prompt. -/
def promptData (seat : Int) (canCheck : Bool) (callAmount minRaise : Rat) :
    List (String × JValue) :=
  [("seat", .jnum (seat : Rat)), ("canCheck", .jbool canCheck),
   ("callAmount", .jnum callAmount), ("minRaiseToTotalBet", .jnum minRaise)]

/-- A full `onmove` envelope. -/
def onmoveMsg (seat : Int) (canCheck : Bool) (callAmount minRaise : Rat) :
    JValue :=
  .jobj [("messageType", .jstr "onmove"),
         ("data", .jobj (promptData seat canCheck callAmount minRaise))]

/-- A full `gameState` envelope around an arbitrary payload. -/
def gameStateMsg (payload : JValue) : JValue :=
  .jobj [("messageType", .jstr "gameState"), ("data", payload)]

/-- The outbound envelope of an action that carries no amount. -/
def actionEnv (action : String) : JValue :=
  .jobj [("messageType", .jstr action), ("data", .jobj [])]

/-- The outbound envelope of a raise to the given total bet. -/
def raiseEnv (amount : Rat) : JValue :=
  .jobj [("messageType", .jstr "raise"),
         ("data", .jobj [("amount", .jnum amount)])]

/-- A connected, seated player used as a concrete test agent. -/
def alice : TestPlayer :=
  ⟨"Alice", true, some 1, 1000, true, false⟩

/-- A second concrete connected agent. -/
def bob : TestPlayer :=
  ⟨"Bob", true, some 2, 1000, true, false⟩

/-- A third concrete connected agent. -/
def carol : TestPlayer :=
  ⟨"Carol", true, some 3, 1000, true, false⟩

/-- A fourth concrete connected agent. -/
def dave : TestPlayer :=
  ⟨"Dave", true, some 4, 1000, true, false⟩

/-- A scenario step that raises an `Exception`. -/
def failStep : TestStep := fun ps => (ps, some .exc)

/-- Evaluating `getD` on a turn-prompt payload: the `canCheck` field. -/
theorem getD_prompt_canCheck (seat : Int) (cc : Bool) (ca mr : Rat) :
    getD (promptData seat cc ca mr) "canCheck" (.jbool false) = .jbool cc := rfl

/-- Evaluating `getD` on a turn-prompt payload: the `callAmount` field. -/
theorem getD_prompt_callAmount (seat : Int) (cc : Bool) (ca mr : Rat) :
    getD (promptData seat cc ca mr) "callAmount" (.jnum 0) = .jnum ca := rfl

/-- Evaluating `getD` on a turn-prompt payload: the `minRaiseToTotalBet`
field. -/
theorem getD_prompt_minRaise (seat : Int) (cc : Bool) (ca mr : Rat) :
    getD (promptData seat cc ca mr) "minRaiseToTotalBet" (.jnum 0) = .jnum mr := rfl

/-- Evaluating `getD` on a turn-prompt payload: the `seat` field. -/
theorem getD_prompt_seat (seat : Int) (cc : Bool) (ca mr : Rat) :
    getD (promptData seat cc ca mr) "seat" .jnull = .jnum (seat : Rat) := rfl

/-- A connected player's `send_message` transmits the built envelope. -/
theorem send_message_connected (p : TestPlayer) (t : String) (d : Option JValue)
    (hc : p.connected = true) (hs : p.hasSocket = true) :
    send_message p t d = some (mkMessage t d) := by
  simp [send_message, hc, hs]

/-- `auto_play` on a turn-prompt payload follows the four-branch rule and
raises nothing, for a connected player with a websocket. -/
theorem auto_play_spec (p : TestPlayer) (seat : Int) (cc : Bool) (ca mr : Rat)
    (hc : p.connected = true) (hs : p.hasSocket = true) :
    auto_play p (promptData seat cc ca mr) =
      (if cc then [actionEnv "check"]
       else if ca ≤ 50 then [actionEnv "call"]
       else if ca ≤ 100 ∧ 0 < mr then [raiseEnv mr]
       else [actionEnv "fold"], false) := by
  have hsend : ∀ t d, send_action p t d = some (mkMessage t d) := fun t d =>
    send_message_connected p t d hc hs
  simp only [auto_play, getD_prompt_canCheck, getD_prompt_callAmount,
    getD_prompt_minRaise, truthy, pyLe, pyGt0, sendStep, hsend]
  cases cc with
  | true => simp [mkMessage, actionEnv]
  | false =>
    by_cases h50 : ca ≤ 50
    · simp [h50, mkMessage, actionEnv]
    · by_cases h100 : ca ≤ 100
      · by_cases hmr : 0 < mr
        · simp [h50, h100, hmr, mkMessage, raiseEnv, truthy]
        · simp [h50, h100, hmr, mkMessage, actionEnv]
      · simp [h50, h100, mkMessage, actionEnv]

/-- C1: for every turn prompt, `auto_play` selects its action by the
four-branch rule: check when `canCheck` is set; else call when
`callAmount ≤ 50`; else raise to `minRaiseToTotalBet` when
`callAmount ≤ 100` and `minRaiseToTotalBet > 0`; else fold. -/
theorem c1_decision_rule (p : TestPlayer) (seat : Int) (cc : Bool)
    (ca mr : Rat) (hc : p.connected = true) (hs : p.hasSocket = true) :
    auto_play p (promptData seat cc ca mr) =
      (if cc then [actionEnv "check"]
       else if ca ≤ 50 then [actionEnv "call"]
       else if ca ≤ 100 ∧ 0 < mr then [raiseEnv mr]
       else [actionEnv "fold"], false) :=
  auto_play_spec p seat cc ca mr hc hs

/-- C1 witness: the rule evaluated at a concrete prompt for a connected
player. -/
theorem c1_decision_rule_witness :
    auto_play bob (promptData 2 false 30 60) =
      (if (false : Bool) then [actionEnv "check"]
       else if (30 : Rat) ≤ 50 then [actionEnv "call"]
       else if (30 : Rat) ≤ 100 ∧ (0 : Rat) < 60 then [raiseEnv 60]
       else [actionEnv "fold"], false) :=
  c1_decision_rule bob 2 false 30 60 rfl rfl

/-- C2: an agent seated at seat 1 that receives the `onmove` envelope with
`seat = 1`, `canCheck = true`, `callAmount = 0`, `minRaiseToTotalBet = 0`
sends exactly the `check` envelope with an empty data object, and nothing
else changes. -/
theorem c2_check_envelope :
    handle_server_message (.jobj []) alice (onmoveMsg 1 true 0 0) =
      ⟨.jobj [], alice, [actionEnv "check"], false⟩ := rfl

/-- C3: with the hardwired thresholds 50 and 100, the prompt
`canCheck = false`, `callAmount = 75`, `minRaiseToTotalBet = 150` fires the
raise branch with amount 150 (not fold). -/
theorem c3_raise_branch :
    auto_play alice (promptData 1 false 75 150) = ([raiseEnv 150], false) := rfl

/-- C4: handling a `gameState` broadcast wholly replaces the shared snapshot
with that broadcast's payload, whatever the previous snapshot was — no
merge, no ordering check. -/
theorem c4_snapshot_replace (game_state : JValue) (p : TestPlayer)
    (payload : JValue) :
    (handle_server_message game_state p (gameStateMsg payload)).game_state =
      payload := by
  cases payload <;> rfl

/-- C5 counterexample: a message whose bytes are not valid JSON terminates
the listener loop — the well-formed `gameState` message right behind it is
never processed (the snapshot stays at its old value and the loop exits
through the generic exception handler). -/
theorem c5_counterexample :
    listen_for_messages (.jobj []) bob
      [.msg none, .msg (some (gameStateMsg (.jobj [("pot", .jnum 5)])))] =
      ⟨.jobj [], bob, [], .errorCaught⟩ := rfl

/-- C5 amended: a message that fails to parse as JSON is caught and logged
by the clause outside the loop, so the loop terminates and no later message
is processed; a well-formed message that merely lacks `messageType` is
discarded and the loop continues. -/
theorem c5_amended_malformed :
    (∀ (gs : JValue) (p : TestPlayer) (rest : List RecvEvent),
        listen_for_messages gs p (.msg none :: rest) =
          ⟨gs, p, [], .errorCaught⟩) ∧
    (∀ (gs : JValue) (p : TestPlayer) (rest : List RecvEvent),
        listen_for_messages gs p (.msg (some (.jobj [])) :: rest) =
          listen_for_messages gs p rest) := by
  refine ⟨fun gs p rest => rfl, fun gs p rest => ?_⟩
  show (⟨(listen_for_messages gs p rest).game_state,
         (listen_for_messages gs p rest).player,
         [] ++ (listen_for_messages gs p rest).sent,
         (listen_for_messages gs p rest).exitReason⟩ : ListenResult) = _
  rfl

/-- The handler never assigns to the player record. -/
theorem handle_server_message_player (gs : JValue) (p : TestPlayer)
    (m : JValue) :
    (handle_server_message gs p m).player = p := by
  cases m with
  | jobj fields =>
    simp only [handle_server_message]
    split
    · rfl
    · split
      · split
        · split <;> rfl
        · rfl
      · split <;> rfl
  | jnull => rfl
  | jbool b => rfl
  | jnum q => rfl
  | jstr s => rfl
  | jarr elems => rfl

/-- C6 counterexample: a receive failure other than `ConnectionClosed` ends
the loop through the generic handler and leaves `connected` still true (the
flag is not set to false). -/
theorem c6_counterexample :
    (listen_for_messages (.jobj []) carol [.failed]).exitReason =
        .errorCaught ∧
      (listen_for_messages (.jobj []) carol [.failed]).player.connected =
        true :=
  ⟨rfl, rfl⟩

/-- C6 amended: the listener loop sets `connected := false` exactly when it
exits through the `ConnectionClosed` handler; any other exit (normal end or
the generic exception handler) leaves the flag as it was. -/
theorem c6_connected_flag (gs : JValue) (p : TestPlayer)
    (events : List RecvEvent) :
    ((listen_for_messages gs p events).exitReason = .closedConn →
      (listen_for_messages gs p events).player.connected = false) ∧
    ((listen_for_messages gs p events).exitReason ≠ .closedConn →
      (listen_for_messages gs p events).player.connected = p.connected) := by
  induction events generalizing gs p with
  | nil => simp [listen_for_messages]
  | cons ev rest ih =>
    cases ev with
    | closed => simp [listen_for_messages]
    | failed => simp [listen_for_messages]
    | msg raw =>
      cases raw with
      | none => simp [listen_for_messages]
      | some m =>
        have hp := handle_server_message_player gs p m
        simp only [listen_for_messages]
        by_cases hr : (handle_server_message gs p m).raised
        · simp [hr, hp]
        · simpa [hr, hp] using ih (handle_server_message gs p m).game_state p

/-- C6 witness: on a graceful `ConnectionClosed` the flag does go false. -/
theorem c6_connected_flag_witness :
    (listen_for_messages (.jobj []) carol [.closed]).player.connected =
      false :=
  (c6_connected_flag (.jobj []) carol [.closed]).1 rfl

/-- Dispatch of an `onmove` envelope: when the prompt's seat equals the
player's seat, `auto_play` runs; otherwise nothing happens. -/
theorem handle_onmove (gs : JValue) (p : TestPlayer) (s : Int) (cc : Bool)
    (ca mr : Rat) :
    handle_server_message gs p (onmoveMsg s cc ca mr) =
      if pyEqSeat (.jnum (s : Rat)) p.seat then
        ⟨gs, p, (auto_play p (promptData s cc ca mr)).1,
          (auto_play p (promptData s cc ca mr)).2⟩
      else ⟨gs, p, [], false⟩ := by
  simp [handle_server_message, onmoveMsg, getD, jStrIs, getD_prompt_seat]

/-- C7: an `onmove` prompt whose seat equals the agent's assigned seat makes
the agent send exactly one action envelope; a prompt for a different seat
makes it send none. -/
theorem c7_one_action_per_prompt (gs : JValue) (p : TestPlayer) (s : Int)
    (cc : Bool) (ca mr : Rat) (hc : p.connected = true)
    (hs : p.hasSocket = true) :
    (p.seat = some s →
      (handle_server_message gs p (onmoveMsg s cc ca mr)).sent.length = 1) ∧
    (p.seat ≠ some s →
      (handle_server_message gs p (onmoveMsg s cc ca mr)).sent = []) := by
  rw [handle_onmove]
  constructor
  · intro hseat
    rw [hseat]
    simp only [pyEqSeat, beq_self_eq_true, if_true]
    rw [auto_play_spec p s cc ca mr hc hs]
    split_ifs <;> rfl
  · intro hne
    cases hps : p.seat with
    | none => rfl
    | some n =>
      have hbne : ((s : Rat) == (n : Rat)) = false := by
        rw [beq_eq_false_iff_ne]
        intro h
        have hsn : s = n := by exact_mod_cast h
        exact hne (by rw [hps, hsn])
      simp [pyEqSeat, hbne]

/-- C7 witness: the matching-seat and mismatched-seat cases at a concrete
prompt. -/
theorem c7_one_action_per_prompt_witness :
    (handle_server_message (.jobj []) bob (onmoveMsg 2 false 40 80)).sent.length
        = 1 ∧
      (handle_server_message (.jobj []) bob (onmoveMsg 5 false 40 80)).sent
        = [] :=
  ⟨(c7_one_action_per_prompt (.jobj []) bob 2 false 40 80 rfl rfl).1 rfl,
   (c7_one_action_per_prompt (.jobj []) bob 5 false 40 80 rfl rfl).2
     (by decide)⟩

/-- C8: `send_message` fails with the not-connected error exactly when the
player is marked disconnected or has no websocket object; otherwise it
transmits the built envelope (fire and forget). -/
theorem c8_send_not_connected (p : TestPlayer) (t : String)
    (d : Option JValue) :
    (send_message p t d = none ↔
      p.connected = false ∨ p.hasSocket = false) ∧
    (p.connected = true → p.hasSocket = true →
      send_message p t d = some (mkMessage t d)) := by
  cases hc : p.connected <;> cases hs : p.hasSocket <;>
    simp [send_message, hc, hs]

/-- C8 witness: a connected player's send succeeds with the built envelope. -/
theorem c8_send_not_connected_witness :
    send_message alice "check" none = some (mkMessage "check" none) :=
  (c8_send_not_connected alice "check" none).2 rfl rfl

/-- C9: the `finally` clause runs `cleanup` on every path, so every player
connected with an open websocket after the scenario steps — whatever they
did and whether or not they raised — ends with its websocket closed. -/
theorem c9_cleanup_always_runs (steps : List TestStep)
    (players : List TestPlayer) (p : TestPlayer)
    (hmem : p ∈ (run_steps steps players).1) (hc : p.connected = true)
    (hs : p.hasSocket = true) :
    close_ws p ∈ (run_all_tests steps players).1 := by
  have h1 : (run_all_tests steps players).1 =
      cleanup (run_steps steps players).1 := by
    unfold run_all_tests
    rcases run_steps steps players with ⟨ps1, e⟩
    rcases e with _ | ek
    · rfl
    · cases ek <;> rfl
  rw [h1]
  exact List.mem_map.mpr ⟨p, hmem, by simp [hc, hs]⟩

/-- C9 witness: cleanup closed the connected player even though the single
scenario step raised. -/
theorem c9_cleanup_always_runs_witness :
    close_ws dave ∈ (run_all_tests [failStep] [dave]).1 :=
  c9_cleanup_always_runs [failStep] [dave] dave
    (by simp [run_steps, failStep]) rfl rfl

/-- C10: an inbound envelope whose `messageType` is absent or not one of
`gameState`, `onmove`, `handWinnings` leaves the shared snapshot and the
player record unchanged, sends nothing and raises nothing. -/
theorem c10_unknown_type_noop (gs : JValue) (p : TestPlayer)
    (fields : List (String × JValue))
    (hty : ∀ s : String, getD fields "messageType" (.jstr "") = .jstr s →
      s ≠ "gameState" ∧ s ≠ "onmove" ∧ s ≠ "handWinnings") :
    handle_server_message gs p (.jobj fields) = ⟨gs, p, [], false⟩ := by
  simp only [handle_server_message]
  cases hm : getD fields "messageType" (.jstr "") with
  | jstr s =>
    obtain ⟨h1, h2, h3⟩ := hty s hm
    simp [jStrIs, h1, h2, h3]
  | jnull => simp [jStrIs]
  | jbool b => simp [jStrIs]
  | jnum q => simp [jStrIs]
  | jarr elems => simp [jStrIs]
  | jobj f2 => simp [jStrIs]

/-- C10 witness: a `registerPlayer` envelope arriving inbound changes
nothing and sends nothing. -/
theorem c10_unknown_type_noop_witness :
    handle_server_message (.jobj []) alice
      (.jobj [("messageType", .jstr "registerPlayer")]) =
      ⟨.jobj [], alice, [], false⟩ :=
  c10_unknown_type_noop (.jobj []) alice
    [("messageType", .jstr "registerPlayer")]
    (by
      intro s h
      injection h with h'
      subst h'
      exact ⟨by decide, by decide, by decide⟩)

end PokersHarness
